import Mathlib

/-!
Verification of the fsleyes interaction-profile configuration and event
dispatch subsystem, embedded from `fsleyes/profiles/profilemap.py`.

The static configuration tables (`profiles`, `profileHandlers`,
`tempModeMap`, `altHandlerMap`, `fallbackHandlerMap`) are transcribed
directly from the source.  Python `dict` / `OrderedDict` literals become
association lists, preserving entry order; lookup is first-match
association lookup, matching Python dict semantics for duplicate-free
literal keys.  The wx modifier-key constants are embedded by their
numeric values from wxWidgets (`WXK_SHIFT = 306`, `WXK_ALT = 307`,
`WXK_CONTROL = 308`).  A Python key that is a bare key code becomes a
one-element list; a tuple of key codes becomes the list of its elements
in tuple order.
-/

namespace Fsleyes

/-- The view-panel classes appearing as keys of the `profiles` dictionary. -/
inductive ViewType where
  | OrthoPanel
  | LightBoxPanel
  | TimeSeriesPanel
  | HistogramPanel
  | PowerSpectrumPanel
  | Scene3DPanel
deriving DecidableEq, Repr

/-- The Profile subclasses appearing as values of `profileHandlers` and as
keys of `tempModeMap`, `altHandlerMap` and `fallbackHandlerMap`. -/
inductive ProfileClass where
  | OrthoViewProfile
  | OrthoEditProfile
  | OrthoCropProfile
  | OrthoAnnotateProfile
  | LightBoxViewProfile
  | PlotProfile
  | HistogramProfile
  | TimeSeriesProfile
  | Scene3DViewProfile
deriving DecidableEq, Repr

/-- Numeric value of `wx.WXK_SHIFT`. -/
def WXK_SHIFT : Nat := 306

/-- Numeric value of `wx.WXK_ALT`. -/
def WXK_ALT : Nat := 307

/-- Numeric value of `wx.WXK_CONTROL`. -/
def WXK_CONTROL : Nat := 308

/-- First-match association-list lookup, the model of a Python dict lookup. -/
def assocLookup {α β : Type} [DecidableEq α] : List (α × β) → α → Option β
  | [], _ => none
  | (a, b) :: rest, k => if a = k then some b else assocLookup rest k

/-- The `profiles` dictionary of `profilemap.py`: the profile names
available for each view-panel type. -/
def profiles : List (ViewType × List String) :=
  [ (.OrthoPanel,         ["view", "edit", "crop", "annotate"]),
    (.LightBoxPanel,      ["view"]),
    (.TimeSeriesPanel,    ["view"]),
    (.HistogramPanel,     ["view"]),
    (.PowerSpectrumPanel, ["view"]),
    (.Scene3DPanel,       ["view"]) ]

/-- The `profileHandlers` dictionary of `profilemap.py`: which Profile
subclass handles each (view type, profile name) pair. -/
def profileHandlers : List ((ViewType × String) × ProfileClass) :=
  [ ((.OrthoPanel,         "view"),     .OrthoViewProfile),
    ((.OrthoPanel,         "edit"),     .OrthoEditProfile),
    ((.OrthoPanel,         "crop"),     .OrthoCropProfile),
    ((.OrthoPanel,         "annotate"), .OrthoAnnotateProfile),
    ((.LightBoxPanel,      "view"),     .LightBoxViewProfile),
    ((.TimeSeriesPanel,    "view"),     .TimeSeriesProfile),
    ((.HistogramPanel,     "view"),     .HistogramProfile),
    ((.PowerSpectrumPanel, "view"),     .PlotProfile),
    ((.Scene3DPanel,       "view"),     .Scene3DViewProfile) ]

/-- The `tempModeMap` dictionary of `profilemap.py`: per Profile subclass,
the map from (base mode, held modifier keys) to the temporary mode.
Profile classes absent from the Python dictionary map to the empty list. -/
def tempModeMap : ProfileClass → List ((String × List Nat) × String)
  | .OrthoViewProfile =>
      [ (("nav",   [WXK_CONTROL]),            "zoom"),
        (("nav",   [WXK_ALT]),                "pan"),
        (("nav",   [WXK_SHIFT]),              "slice"),
        (("nav",   [WXK_CONTROL, WXK_SHIFT]), "bricon") ]
  | .OrthoEditProfile =>
      [ (("sel",    [WXK_SHIFT]),              "slice"),
        (("desel",  [WXK_SHIFT]),              "slice"),
        (("selint", [WXK_SHIFT]),              "slice"),
        (("fill",   [WXK_SHIFT]),              "slice"),
        (("sel",    [WXK_ALT]),                "pan"),
        (("desel",  [WXK_ALT]),                "pan"),
        (("selint", [WXK_ALT]),                "pan"),
        (("fill",   [WXK_ALT]),                "pan"),
        (("sel",    [WXK_CONTROL]),            "zoom"),
        (("desel",  [WXK_CONTROL]),            "zoom"),
        (("selint", [WXK_CONTROL]),            "zoom"),
        (("fill",   [WXK_CONTROL]),            "zoom"),
        (("sel",    [WXK_CONTROL, WXK_SHIFT]), "chsize"),
        (("desel",  [WXK_CONTROL, WXK_SHIFT]), "chsize"),
        (("selint", [WXK_CONTROL, WXK_SHIFT]), "chthres"),
        (("selint", [WXK_ALT,     WXK_SHIFT]), "chrad") ]
  | .OrthoCropProfile =>
      [ (("crop",  [WXK_SHIFT]),              "nav"),
        (("crop",  [WXK_CONTROL]),            "zoom"),
        (("crop",  [WXK_ALT]),                "pan"),
        (("crop",  [WXK_CONTROL, WXK_SHIFT]), "slice") ]
  | .OrthoAnnotateProfile =>
      [ (("line",    [WXK_SHIFT]),              "nav"),
        (("line",    [WXK_CONTROL]),            "zoom"),
        (("line",    [WXK_ALT]),                "pan"),
        (("line",    [WXK_CONTROL, WXK_SHIFT]), "slice"),
        (("point",   [WXK_SHIFT]),              "nav"),
        (("point",   [WXK_CONTROL]),            "zoom"),
        (("point",   [WXK_ALT]),                "pan"),
        (("point",   [WXK_CONTROL, WXK_SHIFT]), "slice"),
        (("rect",    [WXK_SHIFT]),              "nav"),
        (("rect",    [WXK_CONTROL]),            "zoom"),
        (("rect",    [WXK_ALT]),                "pan"),
        (("rect",    [WXK_CONTROL, WXK_SHIFT]), "slice"),
        (("text",    [WXK_SHIFT]),              "nav"),
        (("text",    [WXK_CONTROL]),            "zoom"),
        (("text",    [WXK_ALT]),                "pan"),
        (("text",    [WXK_CONTROL, WXK_SHIFT]), "slice"),
        (("ellipse", [WXK_SHIFT]),              "nav"),
        (("ellipse", [WXK_CONTROL]),            "zoom"),
        (("ellipse", [WXK_ALT]),                "pan"),
        (("ellipse", [WXK_CONTROL, WXK_SHIFT]), "slice"),
        (("arrow",   [WXK_SHIFT]),              "nav"),
        (("arrow",   [WXK_CONTROL]),            "zoom"),
        (("arrow",   [WXK_ALT]),                "pan"),
        (("arrow",   [WXK_CONTROL, WXK_SHIFT]), "slice") ]
  | .LightBoxViewProfile =>
      [ (("view", [WXK_CONTROL]), "zoom") ]
  | .TimeSeriesProfile =>
      [ (("panzoom", [WXK_CONTROL]), "volume") ]
  | .HistogramProfile =>
      [ (("panzoom", [WXK_CONTROL]), "overlayRange") ]
  | .Scene3DViewProfile =>
      [ (("rotate", [WXK_CONTROL]), "zoom"),
        (("rotate", [WXK_ALT]),     "pan"),
        (("rotate", [WXK_SHIFT]),   "pick") ]
  | .PlotProfile => []

/-- The `altHandlerMap` dictionary of `profilemap.py`: per Profile subclass,
the map redirecting a (mode, event) pair to another (mode, event) pair whose
handler is used instead.  Profile classes absent from the Python dictionary
map to the empty list. -/
def altHandlerMap : ProfileClass → List ((String × String) × (String × String))
  | .OrthoViewProfile =>
      [ (("nav",   "LeftMouseDown"),   ("nav",  "LeftMouseDrag")),
        (("nav",   "MiddleMouseDrag"), ("pan",  "LeftMouseDrag")),
        (("nav",   "RightMouseDown"),  ("zoom", "RightMouseDown")),
        (("nav",   "RightMouseDrag"),  ("zoom", "RightMouseDrag")),
        (("nav",   "RightMouseUp"),    ("zoom", "RightMouseUp")),
        (("slice", "LeftMouseDown"),   ("pick", "LeftMouseDown")),
        (("slice", "LeftMouseDrag"),   ("pick", "LeftMouseDrag")),
        (("slice", "MiddleMouseDrag"), ("pan",  "LeftMouseDrag")),
        (("slice", "RightMouseDown"),  ("zoom", "RightMouseDown")),
        (("slice", "RightMouseDrag"),  ("zoom", "RightMouseDrag")),
        (("slice", "RightMouseUp"),    ("zoom", "RightMouseUp")),
        (("zoom",  "RightMouseDown"),  ("zoom", "RightMouseDrag")),
        (("zoom",  "LeftMouseDown"),   ("nav",  "LeftMouseDown")),
        (("zoom",  "LeftMouseDrag"),   ("nav",  "LeftMouseDrag")),
        (("zoom",  "MiddleMouseDrag"), ("pan",  "LeftMouseDrag")),
        (("pick",  "LeftMouseDown"),   ("pick", "LeftMouseDrag")) ]
  | .OrthoEditProfile =>
      [ (("sel",    "Char"),            ("nav",   "Char")),
        (("desel",  "Char"),            ("nav",   "Char")),
        (("selint", "Char"),            ("nav",   "Char")),
        (("fill",   "Char"),            ("nav",   "Char")),
        (("sel",    "RightMouseDown"),  ("desel", "LeftMouseDown")),
        (("sel",    "RightMouseDrag"),  ("desel", "LeftMouseDrag")),
        (("sel",    "RightMouseUp"),    ("desel", "LeftMouseUp")),
        (("desel",  "RightMouseDown"),  ("sel",   "LeftMouseDown")),
        (("desel",  "RightMouseDrag"),  ("sel",   "LeftMouseDrag")),
        (("desel",  "RightMouseUp"),    ("sel",   "LeftMouseUp")),
        (("fill",   "RightMouseDown"),  ("desel", "LeftMouseDown")),
        (("fill",   "RightMouseDrag"),  ("desel", "LeftMouseDrag")),
        (("fill",   "RightMouseUp"),    ("desel", "LeftMouseUp")),
        (("selint", "RightMouseDown"),  ("desel", "LeftMouseDown")),
        (("selint", "RightMouseDrag"),  ("desel", "LeftMouseDrag")),
        (("selint", "RightMouseUp"),    ("desel", "LeftMouseUp")),
        (("desel",  "MouseMove"),       ("sel",   "MouseMove")),
        (("sel",    "MiddleMouseDrag"), ("pan",   "LeftMouseDrag")),
        (("desel",  "MiddleMouseDrag"), ("pan",   "LeftMouseDrag")),
        (("selint", "MiddleMouseDrag"), ("pan",   "LeftMouseDrag")) ]
  | .OrthoCropProfile =>
      [ (("crop", "MiddleMouseDrag"), ("pan", "LeftMouseDrag")) ]
  | .OrthoAnnotateProfile =>
      [ (("line",    "MiddleMouseDrag"), ("pan",  "LeftMouseDrag")),
        (("point",   "MiddleMouseDrag"), ("pan",  "LeftMouseDrag")),
        (("rect",    "MiddleMouseDrag"), ("pan",  "LeftMouseDrag")),
        (("text",    "MiddleMouseDrag"), ("pan",  "LeftMouseDrag")),
        (("arrow",   "MiddleMouseDrag"), ("pan",  "LeftMouseDrag")),
        (("ellipse", "MiddleMouseDrag"), ("pan",  "LeftMouseDrag")),
        (("line",    "RightMouseDown"),  ("move", "RightMouseDown")),
        (("point",   "RightMouseDown"),  ("move", "RightMouseDown")),
        (("rect",    "RightMouseDown"),  ("move", "RightMouseDown")),
        (("text",    "RightMouseDown"),  ("move", "RightMouseDown")),
        (("arrow",   "RightMouseDown"),  ("move", "RightMouseDown")),
        (("ellipse", "RightMouseDown"),  ("move", "RightMouseDown")),
        (("line",    "RightMouseDrag"),  ("move", "RightMouseDrag")),
        (("point",   "RightMouseDrag"),  ("move", "RightMouseDrag")),
        (("rect",    "RightMouseDrag"),  ("move", "RightMouseDrag")),
        (("text",    "RightMouseDrag"),  ("move", "RightMouseDrag")),
        (("arrow",   "RightMouseDrag"),  ("move", "RightMouseDrag")),
        (("ellipse", "RightMouseDrag"),  ("move", "RightMouseDrag")),
        (("line",    "RightMouseUp"),    ("move", "RightMouseUp")),
        (("point",   "RightMouseUp"),    ("move", "RightMouseUp")),
        (("rect",    "RightMouseUp"),    ("move", "RightMouseUp")),
        (("text",    "RightMouseUp"),    ("move", "RightMouseUp")),
        (("arrow",   "RightMouseUp"),    ("move", "RightMouseUp")),
        (("ellipse", "RightMouseUp"),    ("move", "RightMouseUp")) ]
  | .LightBoxViewProfile =>
      [ (("view", "LeftMouseDown"), ("view", "LeftMouseDrag")) ]
  | .Scene3DViewProfile =>
      [ (("rotate", "MiddleMouseDown"), ("pan", "LeftMouseDown")),
        (("rotate", "MiddleMouseDrag"), ("pan", "LeftMouseDrag")),
        (("rotate", "MiddleMouseUp"),   ("pan", "LeftMouseUp")) ]
  | _ => []

/-- The `fallbackHandlerMap` dictionary of `profilemap.py`: per Profile
subclass, the handlers to call when the primary handler returns `False`.
Profile classes absent from the Python dictionary map to the empty list. -/
def fallbackHandlerMap : ProfileClass → List ((String × String) × (String × String))
  | .OrthoViewProfile =>
      [ (("pick", "LeftMouseDown"), ("nav", "LeftMouseDown")),
        (("pick", "LeftMouseDrag"), ("nav", "LeftMouseDrag")) ]
  | _ => []

/-- Outcome of dispatching one input event. -/
inductive Outcome where
  | handled
  | unhandled
deriving DecidableEq, Repr

/-- Modelled from the spec: temporary-mode resolution (spec section 4.2).
The Profile class that performs this lookup (`fsleyes/profiles/__init__.py`)
is not among the source files; only its configuration table
`profilemap.tempModeMap` is.  Resolution is an exact-match lookup of the
(base mode, held modifier keys) pair in the temporary-mode map; on a miss
the base mode is kept (no partial or subset matching). -/
def resolveTempMode (tm : List ((String × List Nat) × String))
    (base : String) (held : List Nat) : String :=
  match assocLookup tm (base, held) with
  | some m => m
  | none => base

/-- Modelled from the spec: step 2 of event dispatch (spec section 4.3).
The dispatching Profile class (`fsleyes/profiles/__init__.py`) is not among
the source files; only its configuration tables are.  A (mode, event) pair
present in the alternate-handler map is redirected to its target pair;
otherwise it stands. -/
def resolveAlt (alt : List ((String × String) × (String × String)))
    (mode event : String) : String × String :=
  match assocLookup alt (mode, event) with
  | some t => t
  | none => (mode, event)

/-- Modelled from the spec: step 5 of event dispatch (spec section 4.3).
After the primary handler declines (or is absent), the fallback map is
consulted for the original (mode, event) pair; its target handler, when
registered, is invoked directly.  Returns the outcome together with the
updated list of invoked handler methods. -/
def runFallback (fb : List ((String × String) × (String × String)))
    (handlers : List ((String × String) × Bool)) (mode event : String)
    (invoked : List (String × String)) : Outcome × List (String × String) :=
  match assocLookup fb (mode, event) with
  | none => (Outcome.unhandled, invoked)
  | some fbTarget =>
      match assocLookup handlers fbTarget with
      | none => (Outcome.unhandled, invoked)
      | some b =>
          ((if b then Outcome.handled else Outcome.unhandled), invoked ++ [fbTarget])

/-- Modelled from the spec: event dispatch with redirection (spec section
4.3); the dispatching Profile class (`fsleyes/profiles/__init__.py`) is not
among the source files.  `handlers` models the handler methods the profile
instance defines, each returning its handled/declined boolean.  Dispatch
resolves the alternate redirect, invokes the resolved primary handler, and
on decline (or absence) consults the fallback map.  The result is the
outcome paired with the (mode, event) pairs whose handler methods were
invoked, in invocation order. -/
def dispatch (alt fb : List ((String × String) × (String × String)))
    (handlers : List ((String × String) × Bool)) (mode event : String) :
    Outcome × List (String × String) :=
  match assocLookup handlers (resolveAlt alt mode event) with
  | some true => (Outcome.handled, [resolveAlt alt mode event])
  | some false => runFallback fb handlers mode event [resolveAlt alt mode event]
  | none => runFallback fb handlers mode event []

/-- Modelled from the spec: ModifierKeySet canonicalization (spec sections 3
and 8): "an ordered, deduplicated set of modifier key identifiers …
canonically sorted".  The keyboard-state tracking code that builds the
modifier set (`fsleyes/profiles/__init__.py`) is not among the source
files. -/
def canonicalize (s : List Nat) : List Nat :=
  List.insertionSort (· ≤ ·) s.dedup

/-- Strictly ascending by numeric key identifier. -/
def sortedAscending : List Nat → Bool
  | [] => true
  | [_] => true
  | a :: b :: rest => decide (a < b) && sortedAscending (b :: rest)

/-- Strictly descending by numeric key identifier, which for the wx
modifier constants used here coincides with ascending alphabetical order
of the constant names (ALT < CONTROL < SHIFT alphabetically, while
306 = SHIFT < 307 = ALT < 308 = CONTROL numerically). -/
def sortedDescending : List Nat → Bool
  | [] => true
  | [_] => true
  | a :: b :: rest => decide (b < a) && sortedDescending (b :: rest)

/-- Boolean check over an alternate map: every entry whose target is itself
a key has a target-of-target that is not a key (redirect chains stop within
two hops). -/
def altChainsStopAtTwo (alt : List ((String × String) × (String × String))) : Bool :=
  alt.all fun e =>
    match assocLookup alt e.2 with
    | none => true
    | some t2 => (assocLookup alt t2).isNone

lemma altChainsStopAtTwo_spec (alt : List ((String × String) × (String × String)))
    (h : altChainsStopAtTwo alt = true) :
    ∀ e ∈ alt, ∀ t2, assocLookup alt e.2 = some t2 → assocLookup alt t2 = none := by
  intro e he t2 ht2
  have h2 := List.all_eq_true.mp h e he
  rw [ht2] at h2
  simpa using h2

/-- C1 counterexample: in `OrthoViewProfile`'s alternate map, the entry for
("nav", "RightMouseDown") targets ("zoom", "RightMouseDown"), which is
itself a source key of the same alternate map (its entry targets
("zoom", "RightMouseDrag")).  So it is not true that no target pair of an
alternate entry appears as a source key of the same map. -/
theorem C1_counterexample :
    assocLookup (altHandlerMap .OrthoViewProfile) ("nav", "RightMouseDown")
        = some ("zoom", "RightMouseDown")
    ∧ assocLookup (altHandlerMap .OrthoViewProfile) ("zoom", "RightMouseDown")
        = some ("zoom", "RightMouseDrag") :=
  ⟨rfl, rfl⟩

/-- C1 (amended): redirect chains in every profile's alternate map are
acyclic and terminate within at most two hops: whenever the target of an
alternate entry is itself a source key of the map, the target of that
second entry is not a source key. -/
theorem C1_alt_chains_terminate :
    ∀ p : ProfileClass, ∀ e ∈ altHandlerMap p,
      ∀ t2, assocLookup (altHandlerMap p) e.2 = some t2 →
        assocLookup (altHandlerMap p) t2 = none := by
  intro p
  apply altChainsStopAtTwo_spec
  cases p <;> decide

/-- C1 witness: the amended theorem applied to the two-hop chain
("nav", "RightMouseDown") → ("zoom", "RightMouseDown") →
("zoom", "RightMouseDrag"), whose endpoint is not a key. -/
theorem C1_alt_chains_terminate_witness :
    assocLookup (altHandlerMap .OrthoViewProfile) ("zoom", "RightMouseDrag") = none :=
  C1_alt_chains_terminate .OrthoViewProfile
    (("nav", "RightMouseDown"), ("zoom", "RightMouseDown")) (by decide)
    ("zoom", "RightMouseDrag") rfl

/-- C2: when the effective mode and event match a key of the alternate map,
dispatch invokes the handler of the target pair instead of the literal
pair: for `OrthoViewProfile` in mode "nav" a "RightMouseDown" event invokes
the ("zoom", "RightMouseDown") handler only, and for `OrthoEditProfile` in
mode "sel" a "RightMouseDown" event invokes the ("desel", "LeftMouseDown")
handler only, whatever those handlers return. -/
theorem C2_alt_redirect_dispatch (hs : List ((String × String) × Bool)) (b1 b2 : Bool)
    (hz : assocLookup hs ("zoom", "RightMouseDown") = some b1)
    (hd : assocLookup hs ("desel", "LeftMouseDown") = some b2) :
    (dispatch (altHandlerMap .OrthoViewProfile) (fallbackHandlerMap .OrthoViewProfile)
        hs "nav" "RightMouseDown").2 = [("zoom", "RightMouseDown")]
    ∧ (dispatch (altHandlerMap .OrthoEditProfile) (fallbackHandlerMap .OrthoEditProfile)
        hs "sel" "RightMouseDown").2 = [("desel", "LeftMouseDown")] := by
  constructor
  · have step : dispatch (altHandlerMap .OrthoViewProfile)
        (fallbackHandlerMap .OrthoViewProfile) hs "nav" "RightMouseDown"
        = match assocLookup hs ("zoom", "RightMouseDown") with
          | some true => (Outcome.handled, [("zoom", "RightMouseDown")])
          | some false => runFallback (fallbackHandlerMap .OrthoViewProfile) hs
              "nav" "RightMouseDown" [("zoom", "RightMouseDown")]
          | none => runFallback (fallbackHandlerMap .OrthoViewProfile) hs
              "nav" "RightMouseDown" [] := rfl
    rw [step, hz]
    cases b1 <;> rfl
  · have step : dispatch (altHandlerMap .OrthoEditProfile)
        (fallbackHandlerMap .OrthoEditProfile) hs "sel" "RightMouseDown"
        = match assocLookup hs ("desel", "LeftMouseDown") with
          | some true => (Outcome.handled, [("desel", "LeftMouseDown")])
          | some false => runFallback (fallbackHandlerMap .OrthoEditProfile) hs
              "sel" "RightMouseDown" [("desel", "LeftMouseDown")]
          | none => runFallback (fallbackHandlerMap .OrthoEditProfile) hs
              "sel" "RightMouseDown" [] := rfl
    rw [step, hd]
    cases b2 <;> rfl

/-- C2 witness: a handler registry with both target handlers registered. -/
theorem C2_alt_redirect_dispatch_witness :
    (dispatch (altHandlerMap .OrthoViewProfile) (fallbackHandlerMap .OrthoViewProfile)
        [(("zoom", "RightMouseDown"), true), (("desel", "LeftMouseDown"), true)]
        "nav" "RightMouseDown").2 = [("zoom", "RightMouseDown")]
    ∧ (dispatch (altHandlerMap .OrthoEditProfile) (fallbackHandlerMap .OrthoEditProfile)
        [(("zoom", "RightMouseDown"), true), (("desel", "LeftMouseDown"), true)]
        "sel" "RightMouseDown").2 = [("desel", "LeftMouseDown")] :=
  C2_alt_redirect_dispatch
    [(("zoom", "RightMouseDown"), true), (("desel", "LeftMouseDown"), true)]
    true true rfl rfl

/-- C3: for `OrthoViewProfile` in mode "pick", a "LeftMouseDown" event
first invokes the alternate-resolved primary handler
("pick", "LeftMouseDrag"); when that handler declines, dispatch then
invokes the fallback handler ("nav", "LeftMouseDown") registered for
("pick", "LeftMouseDown") in the fallback map. -/
theorem C3_fallback_dispatch (hs : List ((String × String) × Bool)) (b : Bool)
    (hp : assocLookup hs ("pick", "LeftMouseDrag") = some false)
    (hn : assocLookup hs ("nav", "LeftMouseDown") = some b) :
    (dispatch (altHandlerMap .OrthoViewProfile) (fallbackHandlerMap .OrthoViewProfile)
        hs "pick" "LeftMouseDown").2
      = [("pick", "LeftMouseDrag"), ("nav", "LeftMouseDown")] := by
  have step : dispatch (altHandlerMap .OrthoViewProfile)
      (fallbackHandlerMap .OrthoViewProfile) hs "pick" "LeftMouseDown"
      = match assocLookup hs ("pick", "LeftMouseDrag") with
        | some true => (Outcome.handled, [("pick", "LeftMouseDrag")])
        | some false => runFallback (fallbackHandlerMap .OrthoViewProfile) hs
            "pick" "LeftMouseDown" [("pick", "LeftMouseDrag")]
        | none => runFallback (fallbackHandlerMap .OrthoViewProfile) hs
            "pick" "LeftMouseDown" [] := rfl
  have stepFb : runFallback (fallbackHandlerMap .OrthoViewProfile) hs
      "pick" "LeftMouseDown" [("pick", "LeftMouseDrag")]
      = match assocLookup hs ("nav", "LeftMouseDown") with
        | none => (Outcome.unhandled, [("pick", "LeftMouseDrag")])
        | some b => ((if b then Outcome.handled else Outcome.unhandled),
            [("pick", "LeftMouseDrag")] ++ [("nav", "LeftMouseDown")]) := rfl
  rw [step, hp, stepFb, hn]
  cases b <;> rfl

/-- C3 witness: a registry where pick's drag handler declines and nav's
LeftMouseDown handler is registered. -/
theorem C3_fallback_dispatch_witness :
    (dispatch (altHandlerMap .OrthoViewProfile) (fallbackHandlerMap .OrthoViewProfile)
        [(("pick", "LeftMouseDrag"), false), (("nav", "LeftMouseDown"), true)]
        "pick" "LeftMouseDown").2
      = [("pick", "LeftMouseDrag"), ("nav", "LeftMouseDown")] :=
  C3_fallback_dispatch
    [(("pick", "LeftMouseDrag"), false), (("nav", "LeftMouseDown"), true)]
    true rfl rfl

/-- C4: temporary-mode resolution is exact-match only.  For
`OrthoViewProfile` with base mode "nav": holding Control resolves to
"zoom"; holding nothing resolves back to "nav"; holding Shift+Alt (a
combination with no entry, although each key alone has one) resolves to
"nav" — no subset matching; and in general any (base, held) pair absent
from the map resolves to the base mode. -/
theorem C4_temp_mode_exact_match :
    resolveTempMode (tempModeMap .OrthoViewProfile) "nav" [WXK_CONTROL] = "zoom"
    ∧ resolveTempMode (tempModeMap .OrthoViewProfile) "nav" [] = "nav"
    ∧ resolveTempMode (tempModeMap .OrthoViewProfile) "nav" [WXK_SHIFT, WXK_ALT] = "nav"
    ∧ ∀ base held,
        assocLookup (tempModeMap .OrthoViewProfile) (base, held) = none →
          resolveTempMode (tempModeMap .OrthoViewProfile) base held = base := by
  refine ⟨rfl, rfl, rfl, ?_⟩
  intro base held h
  unfold resolveTempMode
  rw [h]

/-- C4 witness: a (base, held) pair with no entry resolves to the base. -/
theorem C4_temp_mode_exact_match_witness :
    assocLookup (tempModeMap .OrthoViewProfile) ("crop", [WXK_ALT]) = none
    ∧ resolveTempMode (tempModeMap .OrthoViewProfile) "crop" [WXK_ALT] = "crop" :=
  ⟨rfl, C4_temp_mode_exact_match.2.2.2 "crop" [WXK_ALT] rfl⟩

/-- C5: every profile mode name listed for a view type in `profiles`
resolves through `profileHandlers` to a handler class (the lookup is
`some`), and the keys of `profileHandlers` are pairwise distinct, so the
lookup is never ambiguous. -/
theorem C5_profile_handlers_total_unique :
    (∀ vm ∈ profiles, ∀ m ∈ vm.2,
        (assocLookup profileHandlers (vm.1, m)).isSome = true)
    ∧ (profileHandlers.map Prod.fst).Nodup := by
  constructor <;> decide

/-- C5 witness: the (OrthoPanel, "edit") pair resolves to a handler. -/
theorem C5_profile_handlers_total_unique_witness :
    (assocLookup profileHandlers (ViewType.OrthoPanel, "edit")).isSome = true :=
  C5_profile_handlers_total_unique.1
    (ViewType.OrthoPanel, ["view", "edit", "crop", "annotate"]) (by decide)
    "edit" (by decide)

/-- C6 counterexample: the multi-key temporary-mode key for
("nav", Control+Shift) in `OrthoViewProfile` is the tuple
(WXK_CONTROL, WXK_SHIFT) = (308, 306), which is not sorted ascending by
numeric key identifier. -/
theorem C6_counterexample :
    assocLookup (tempModeMap .OrthoViewProfile)
        ("nav", [WXK_CONTROL, WXK_SHIFT]) = some "bricon"
    ∧ sortedAscending [WXK_CONTROL, WXK_SHIFT] = false :=
  ⟨rfl, rfl⟩

/-- C6 (amended): every ModifierKeySet key in every profile's
temporary-mode map is sorted strictly descending by numeric wx key
identifier — which for the constants used (WXK_SHIFT = 306,
WXK_ALT = 307, WXK_CONTROL = 308) coincides with ascending alphabetical
order of the constant names, the ordering the source requires — so all
keys across the map use one canonical ordering. -/
theorem C6_keys_canonically_ordered :
    ∀ p : ProfileClass, ∀ e ∈ tempModeMap p,
      sortedDescending e.1.2 = true := by
  intro p
  cases p <;> decide

/-- C6 witness: the amended theorem applied to the Control+Shift key of
`OrthoViewProfile`. -/
theorem C6_keys_canonically_ordered_witness :
    sortedDescending [WXK_CONTROL, WXK_SHIFT] = true :=
  C6_keys_canonically_ordered .OrthoViewProfile
    (("nav", [WXK_CONTROL, WXK_SHIFT]), "bricon") (by decide)

/-- C7: a (mode, event) pair with no handler method, no alternate-map
entry and no fallback-map entry dispatches to the unhandled outcome with
no handler method invoked, for every profile's maps and every handler
registry. -/
theorem C7_unhandled_silent (p : ProfileClass)
    (hs : List ((String × String) × Bool)) (mode event : String)
    (ha : assocLookup (altHandlerMap p) (mode, event) = none)
    (hh : assocLookup hs (mode, event) = none)
    (hf : assocLookup (fallbackHandlerMap p) (mode, event) = none) :
    dispatch (altHandlerMap p) (fallbackHandlerMap p) hs mode event
      = (Outcome.unhandled, []) := by
  have ht : resolveAlt (altHandlerMap p) mode event = (mode, event) := by
    unfold resolveAlt
    rw [ha]
  have step : dispatch (altHandlerMap p) (fallbackHandlerMap p) hs mode event
      = match assocLookup hs (resolveAlt (altHandlerMap p) mode event) with
        | some true => (Outcome.handled, [resolveAlt (altHandlerMap p) mode event])
        | some false => runFallback (fallbackHandlerMap p) hs mode event
            [resolveAlt (altHandlerMap p) mode event]
        | none => runFallback (fallbackHandlerMap p) hs mode event [] := rfl
  have stepFb : runFallback (fallbackHandlerMap p) hs mode event []
      = match assocLookup (fallbackHandlerMap p) (mode, event) with
        | none => (Outcome.unhandled, [])
        | some fbTarget =>
            match assocLookup hs fbTarget with
            | none => (Outcome.unhandled, [])
            | some b =>
                ((if b then Outcome.handled else Outcome.unhandled), [fbTarget]) := by
    unfold runFallback
    cases assocLookup (fallbackHandlerMap p) (mode, event) with
    | none => rfl
    | some fbTarget =>
        cases assocLookup hs fbTarget with
        | none => rfl
        | some b => rfl
  rw [step, ht, hh, stepFb, hf]

/-- C7 witness: a pair absent from every table of `OrthoViewProfile` and
from an empty handler registry is silently unhandled. -/
theorem C7_unhandled_silent_witness :
    dispatch (altHandlerMap .OrthoViewProfile) (fallbackHandlerMap .OrthoViewProfile)
        [] "flarp" "WheelUp" = (Outcome.unhandled, []) :=
  C7_unhandled_silent .OrthoViewProfile [] "flarp" "WheelUp" rfl rfl rfl

/-- C8: ModifierKeySet canonicalization (deduplicate, then sort) is
idempotent. -/
theorem C8_canonicalize_idempotent :
    ∀ s : List Nat, canonicalize (canonicalize s) = canonicalize s := by
  intro s
  unfold canonicalize
  have hnd : (List.insertionSort (· ≤ ·) s.dedup).Nodup :=
    (List.perm_insertionSort (· ≤ ·) s.dedup).nodup_iff.mpr (List.nodup_dedup s)
  rw [List.dedup_eq_self.mpr hnd,
    List.Sorted.insertionSort_eq (List.sorted_insertionSort (· ≤ ·) _)]

/-- C9: in every profile's temporary-mode map, the override mode differs
from the base mode of its key: holding a registered modifier combination
always switches to a genuinely different mode. -/
theorem C9_temp_mode_differs :
    ∀ p : ProfileClass, ∀ e ∈ tempModeMap p, e.2 ≠ e.1.1 := by
  intro p
  cases p <;> decide

/-- C9 witness: the ("nav", Control) → "zoom" entry of `OrthoViewProfile`
has override distinct from base. -/
theorem C9_temp_mode_differs_witness : ("zoom" : String) ≠ "nav" :=
  C9_temp_mode_differs .OrthoViewProfile
    (("nav", [WXK_CONTROL]), "zoom") (by decide)

/-- C10: every view type in the `profiles` table lists "view" among its
profile names, and the (view type, "view") pair resolves through
`profileHandlers`. -/
theorem C10_view_profile_everywhere :
    ∀ vm ∈ profiles,
      "view" ∈ vm.2
      ∧ (assocLookup profileHandlers (vm.1, "view")).isSome = true := by
  decide

/-- C10 witness: the Scene3D panel entry. -/
theorem C10_view_profile_everywhere_witness :
    "view" ∈ (["view"] : List String)
    ∧ (assocLookup profileHandlers (ViewType.Scene3DPanel, "view")).isSome = true :=
  C10_view_profile_everywhere (ViewType.Scene3DPanel, ["view"]) (by decide)

end Fsleyes
